import Mathlib

/-!
Verification of the `zeit-labs/zeitlabs-hyperpay` payment-gateway integration.

The definitions below are a shallow embedding of the repository's Python
sources:

* `src/hyperpay/client.py` — `HyperPayClient.verify_webhook_callback_status`
  and its status-code regular expressions;
* `src/hyperpay/helpers.py` — `verify_success_response_with_cart` and
  `MANDATORY_FIELDS`;
* `src/hyperpay/views.py` — `HyperPayWebhookView.post` (the webhook
  reconciliation flow), modelled as a function over an explicit store state,
  with the external `zeitlabs_payments` collaborators (`handle_payment`,
  `create_invoice`, `fulfill_cart`) passed in as oracles.

Untyped Python dictionaries are embedded as structures holding an `Option`
per key that the code reads; Python `Decimal` values are embedded as `Rat`.
An uncaught Python exception is embedded as `Except.error`.
-/

namespace HyperPaySpec

/-- Tri-state payment outcome, from `PaymentStatus` in `src/hyperpay/client.py`
(duplicated verbatim in `src/hyperpay/views.py`). -/
inductive PaymentStatus
  | SUCCESS
  | PENDING
  | FAILURE
deriving DecidableEq, Repr

/-- Boolean prefix test on character lists; used to embed the anchored
regular expressions `^(...)` of the classifier, whose alternatives are all
plain string prefixes. -/
def isPre : List Char → List Char → Bool
  | [], _ => true
  | _ :: _, [] => false
  | a :: as, b :: bs => a == b && isPre as bs

/-- The string `s` starts with `p` (embedding of `re.search` with a
`^`-anchored literal pattern). -/
def swith (s p : String) : Bool := isPre p.toList s.toList

/-- Embedding of `PENDING_CHANGEABLE_SOON_CODES_REGEX = ^(000\.200)` from
`src/hyperpay/client.py`. -/
def pendingChangeableSoon (c : String) : Bool := swith c "000.200"

/-- Embedding of `PENDING_NOT_CHANGEABLE_SOON_CODES_REGEX =
^(800\.400\.5|100\.400\.500)` from `src/hyperpay/client.py`. -/
def pendingNotChangeableSoon (c : String) : Bool :=
  swith c "800.400.5" || swith c "100.400.500"

/-- Embedding of `SUCCESS_CODES_REGEX = ^(000\.000\.|000\.100\.1|000\.[36])`
from `src/hyperpay/client.py`. -/
def successCode (c : String) : Bool :=
  swith c "000.000." || swith c "000.100.1" || swith c "000.3" || swith c "000.6"

/-- Embedding of `SUCCESS_MANUAL_REVIEW_CODES_REGEX =
^(000\.400\.0[^3]|000\.400\.[0-1]{2}0)` from `src/hyperpay/client.py`:
after the literal prefix `000.400.` either a `0` followed by one character
other than `3`, or two characters in `[0-1]` followed by `0`. -/
def successManualReview (c : String) : Bool :=
  match c.toList with
  | '0' :: '0' :: '0' :: '.' :: '4' :: '0' :: '0' :: '.' :: rest =>
      (match rest with
       | '0' :: d :: _ => d != '3'
       | _ => false)
      ||
      (match rest with
       | a :: b :: '0' :: _ => (a == '0' || a == '1') && (b == '0' || b == '1')
       | _ => false)
  | _ => false

/-- Python truthiness of an optional string value (`not x` is true exactly
for an absent key or an empty string here). -/
def optTruthy : Option String → Bool
  | none => false
  | some s => !s.isEmpty

/-- The `elif` chain of `HyperPayClient.verify_webhook_callback_status`
(`src/hyperpay/client.py`, lines 162-201), applied once `result_code` and
`payment_id` were found truthy. -/
def classifyCode (c : String) : PaymentStatus :=
  if pendingChangeableSoon c then PaymentStatus.PENDING
  else if pendingNotChangeableSoon c then PaymentStatus.FAILURE
  else if successCode c then PaymentStatus.SUCCESS
  else if successManualReview c then PaymentStatus.FAILURE
  else PaymentStatus.FAILURE

/-- Embedding of `HyperPayClient.verify_webhook_callback_status`
(`src/hyperpay/client.py`, lines 150-201).  The argument `rc` is
`response_data.get('result', {}).get('code')` and `pid` is
`response_data.get('id')`; an `Except.error` is the
`HyperPayBadGatewayResponse` raise. -/
def verify_webhook_callback_status (rc pid : Option String) :
    Except String PaymentStatus :=
  if !optTruthy rc || !optTruthy pid then
    Except.error "Missing result code or payment_id."
  else
    Except.ok (classifyCode (rc.getD ""))

/-- Value of a digit character. -/
def digitVal (c : Char) : Nat := c.toNat - '0'.toNat

/-- Natural number denoted by a digit string. -/
def digitsVal (l : List Char) : Nat := l.foldl (fun n c => 10 * n + digitVal c) 0

/-- Embedding of the Python `Decimal(amount)` constructor on the decimal
strings this gateway exchanges: an optional sign, integer digits, and an
optional fractional part, with at least one digit in total.  (Exponent
notation and the special values `NaN`/`Infinity` accepted by `Decimal` do
not occur in this integration and are not modelled.)  `none` is the
`InvalidOperation` raise. -/
def parseDecimal (s : String) : Option Rat :=
  let cs := s.toList
  let signed : Bool × List Char :=
    match cs with
    | '-' :: rest => (true, rest)
    | '+' :: rest => (false, rest)
    | _ => (false, cs)
  let intPart := signed.2.takeWhile Char.isDigit
  let rest := signed.2.dropWhile Char.isDigit
  let mag : Option Rat :=
    match rest with
    | [] => if intPart.isEmpty then none else some (mkRat (digitsVal intPart) 1)
    | '.' :: frac =>
        if frac.all Char.isDigit && !(intPart.isEmpty && frac.isEmpty) then
          some (mkRat (digitsVal intPart * 10 ^ frac.length + digitsVal frac) (10 ^ frac.length))
        else none
    | _ => none
  mag.map (fun q => if signed.1 then -q else q)

/-- A local order ("cart") record, the slice of the external
`zeitlabs_payments.models.Cart` that this repository reads: its id, its
status enum, its decimal `total` and its line-item count
(`cart.items.count()`). -/
structure Cart where
  id : Nat
  status : String
  total : Rat
  itemsCount : Nat
deriving DecidableEq, Repr

/-- The `result` sub-object of a vendor response: its `code` value, which may
be absent, a string, or present but not a string (the code checks
`isinstance(code, str)`), and its `description`. -/
inductive CodeVal
  | str (s : String)
  | nonstr
deriving DecidableEq, Repr

/-- Vendor success response as read by `verify_success_response_with_cart`
(`src/hyperpay/helpers.py`): one component per dictionary key the function
touches.  `cardKeys` is the key set of the `card` sub-object
(`response.get('card', {})` makes an absent key and an empty object
indistinguishable); `cart` is `none` when the response has no `cart` key and
`some none` when the `cart` object has no `items` list, else the length of
the `items` list. -/
structure HPResponse where
  hasId : Bool
  hasPaymentType : Bool
  hasPaymentBrand : Bool
  amount : Option String
  currency : Option String
  hasMerchantTransactionId : Bool
  resultCode : Option (Option CodeVal)
  cardKeys : List String
  cart : Option (Option Nat)
deriving DecidableEq, Repr

/-- Embedding of `MANDATORY_FIELDS` from `src/hyperpay/helpers.py`. -/
def MANDATORY_FIELDS : List String :=
  ["id", "paymentType", "paymentBrand", "amount", "currency",
   "merchantTransactionId", "result"]

/-- Key-membership test `field in response` for the keys named in
`MANDATORY_FIELDS`. -/
def hasField (r : HPResponse) : String → Bool
  | "id" => r.hasId
  | "paymentType" => r.hasPaymentType
  | "paymentBrand" => r.hasPaymentBrand
  | "amount" => r.amount.isSome
  | "currency" => r.currency.isSome
  | "merchantTransactionId" => r.hasMerchantTransactionId
  | "result" => r.resultCode.isSome
  | _ => true

/-- Line-item count seen by the validator:
`response.get('cart', {}).get('items', [])`. -/
def responseItems (r : HPResponse) : Nat := ((r.cart.getD none).getD 0)

/-- The configured `get_settings().valid_currency` (the deployment's single
valid currency; `SAR` in the repository's test settings). -/
def VALID_CURRENCY : String := "SAR"

/-- Required keys of a truthy `card` sub-object, in source order. -/
def REQUIRED_CARD_FIELDS : List String :=
  ["bin", "last4Digits", "holder", "expiryMonth", "expiryYear"]

/-- Embedding of `verify_success_response_with_cart` from
`src/hyperpay/helpers.py` (lines 17-59).  `Except.error` carries the message
of the `HyperPayException` raised at the first violation; note that both the
unparseable-amount case and the amount-mismatch case surface as the wrapped
"Error comparing" message, because the inner mismatch raise is itself caught
by the surrounding `except` clause and re-raised. -/
def verify_success_response_with_cart (r : HPResponse) (cart : Cart) :
    Except String Unit :=
  if !r.hasId then Except.error "Missing field in response: id"
  else if !r.hasPaymentType then Except.error "Missing field in response: paymentType"
  else if !r.hasPaymentBrand then Except.error "Missing field in response: paymentBrand"
  else match r.amount with
  | none => Except.error "Missing field in response: amount"
  | some amount =>
    match r.currency with
    | none => Except.error "Missing field in response: currency"
    | some currency =>
      if !r.hasMerchantTransactionId then
        Except.error "Missing field in response: merchantTransactionId"
      else match r.resultCode with
      | none => Except.error "Missing field in response: result"
      | some code =>
        match parseDecimal amount with
        | none =>
            Except.error ("Error comparing cart total in response with cart total: "
              ++ toString cart.total ++ ". Amount received: " ++ amount)
        | some amountDecimal =>
          if cart.total != amountDecimal then
            Except.error ("Error comparing cart total in response with cart total: "
              ++ toString cart.total ++ ". Amount received: " ++ amount)
          else if currency != VALID_CURRENCY then
            Except.error ("Invalid currency: " ++ currency)
          else if !(match code with
                    | some (CodeVal.str s) => !s.isEmpty
                    | _ => false) then
            Except.error "Missing or invalid result.code"
          else match (if r.cardKeys.isEmpty then none
                      else REQUIRED_CARD_FIELDS.find? (fun f => !r.cardKeys.contains f)) with
          | some f => Except.error ("Missing card field: " ++ f)
          | none =>
            if responseItems r != cart.itemsCount then
              Except.error ("Mismatch in number of cart items: local="
                ++ toString cart.itemsCount ++ ", response=" ++ toString (responseItems r))
            else Except.ok ()

/-- Modelled from the spec: the external order subsystem's status enum
values, `{PROCESSING, PAYMENT_PENDING, PAID, CANCELLED, ...}` (Django text
choices; the concrete strings follow the repository's test output, e.g.
`cart is in status: processing`). -/
def CartPROCESSING : String := "processing"

/-- Modelled from the spec: the `PAID` member of the order status enum. -/
def CartPAID : String := "paid"

/-- Modelled from the spec: the `CANCELLED` member of the order status enum. -/
def CartCANCELLED : String := "cancelled"

/-- Modelled from the spec: the `PAYMENT_PENDING` member of the order status
enum. -/
def CartPAYMENT_PENDING : String := "payment_pending"

/-- A financial transaction record, the slice of the external
`zeitlabs_payments.models.Transaction` the webhook flow reads and writes:
the gateway-scoped transaction id, the gateway slug, the transaction type
(`Transaction.TransactionType.PAYMENT`), the status string (`'Pending'` /
`'Success'`), and the id of the associated cart (`none` for a dangling
foreign key). -/
structure Transaction where
  gatewayTransactionId : String
  gateway : String
  ttype : String
  status : String
  cart : Option Nat
deriving DecidableEq, Repr

/-- Audit-log actions used by the webhook flow (`AuditLog.AuditActions`);
`DUPLICATE_TRANSACTION` is the action the repository's own test
`test_post_success_for_duplicate_transaction` expects for a replayed
notification. -/
inductive AuditAction
  | RECEIVED_RESPONSE
  | RESPONSE_INVALID_CART
  | TRANSACTION_ROLLED_BACK
  | CART_FULFILLED
  | DUPLICATE_TRANSACTION
deriving DecidableEq, Repr

/-- One appended audit-log row: the action and the cart id passed to
`AuditLog.log` (the gateway is always this processor's slug). -/
structure AuditEntry where
  action : AuditAction
  cart : Option Nat
deriving DecidableEq, Repr

/-- The persistent store visible to one webhook delivery: transaction table,
cart table, invoices (recorded by cart id) and the append-only audit log. -/
structure State where
  transactions : List Transaction
  carts : List Cart
  invoices : List Nat
  audit : List AuditEntry
deriving DecidableEq, Repr

/-- Append an audit-log row (`AuditLog.log`). -/
def addAudit (s : State) (a : AuditAction) (c : Option Nat) : State :=
  { s with audit := s.audit ++ [⟨a, c⟩] }

/-- The processor slug (`HyperPay.SLUG`). -/
def SLUG : String := "hyperpay"

/-- The transaction type the lookup filters on
(`Transaction.TransactionType.PAYMENT`). -/
def TYPE_PAYMENT : String := "payment"

/-- Embedding of the `Transaction.objects.get(gateway_transaction_id=...,
gateway=..., type=PAYMENT, status='Pending')` lookup in
`HyperPayWebhookView.post` (`src/hyperpay/views.py`, lines 240-245); `none`
is the `Transaction.DoesNotExist` branch. -/
def findPendingTransaction (s : State) (tid : String) : Option Transaction :=
  s.transactions.find? (fun t =>
    t.gatewayTransactionId == tid && t.gateway == SLUG &&
    t.ttype == TYPE_PAYMENT && t.status == "Pending")

/-- Cart lookup by id. -/
def getCart (s : State) (cid : Nat) : Option Cart :=
  s.carts.find? (fun c => c.id == cid)

/-- Everything after the first `-` of the list, or `none` when there is no
`-` at all. -/
def afterFirstDash : List Char → Option (List Char)
  | [] => none
  | '-' :: rest => some rest
  | _ :: rest => afterFirstDash rest

/-- Embedding of `data['merchant_transaction_id'].split("-", 1)[1]`
(`src/hyperpay/views.py`, line 238): the remainder after the first dash;
`none` is the uncaught `IndexError` raised when the reference contains no
dash (then `split` yields a single-element list). -/
def split_remainder (ref : String) : Option String :=
  (afterFirstDash ref.toList).map String.mk

/-- The webhook request payload as read by `HyperPayWebhookView.post` and,
through the camel-case keys, by the (never called) validator: one component
per dictionary key either function touches.  The snake-case keys
(`merchant_transaction_id`, `payment_brand`, ...) and the camel-case keys
(`merchantTransactionId`, `paymentType`, ...) are distinct keys of the same
JSON object. -/
structure WebhookPayload where
  id : Option String
  resultCode : Option String
  resultDescription : Option String
  merchant_transaction_id : Option String
  payment_brand : Option String
  amount : Option String
  currency : Option String
  hasPaymentType : Bool
  hasPaymentBrand : Bool
  hasMerchantTransactionId : Bool
  cardKeys : List String
  cart : Option (Option Nat)
deriving DecidableEq, Repr

/-- The validator's view of the same payload dictionary
(`id`, `amount`, `currency`, `result` and `cart` are shared keys; the
camel-case presence flags are the validator-only keys). -/
def WebhookPayload.toHPResponse (p : WebhookPayload) : HPResponse where
  hasId := p.id.isSome
  hasPaymentType := p.hasPaymentType
  hasPaymentBrand := p.hasPaymentBrand
  amount := p.amount
  currency := p.currency
  hasMerchantTransactionId := p.hasMerchantTransactionId
  resultCode := p.resultCode.map (fun c => some (CodeVal.str c))
  cardKeys := p.cardKeys
  cart := p.cart

/-- The external order-fulfillment collaborators invoked by the webhook flow
(`self.payment_processor.handle_payment`, `.create_invoice`,
`.fulfill_cart`); they live in the external `zeitlabs_payments` package and
are passed in as oracles.  An `Except.error` is a raised exception, which is
taken to leave the store unchanged (for `handle_payment` this is exactly the
`db_transaction.atomic()` rollback; the view's own `try` blocks decide what
happens next). -/
structure Env where
  handle_payment : Nat → String → State → Except String State
  create_invoice : Nat → State → Except String State
  fulfill_cart : Nat → State → Except String State

/-- The tail of `HyperPayWebhookView.post` (`src/hyperpay/views.py`, lines
274-316) once the cart was found in `PROCESSING` state and the payload keys
used as call arguments resolved: the atomic `handle_payment` block with its
rollback audit, then the log-only `create_invoice` / `fulfill_cart` block. -/
def commit_payment (env : Env) (cartId : Nat) (tid : String) (s : State) :
    Except String (Nat × State) :=
  match env.handle_payment cartId tid s with
  | Except.error _ =>
      Except.ok (200, addAudit s AuditAction.TRANSACTION_ROLLED_BACK (some cartId))
  | Except.ok s1 =>
    match env.create_invoice cartId s1 with
    | Except.error _ => Except.ok (200, s1)
    | Except.ok s2 =>
      match env.fulfill_cart cartId s2 with
      | Except.error _ => Except.ok (200, s2)
      | Except.ok s3 =>
          Except.ok (200, addAudit s3 AuditAction.CART_FULFILLED (some cartId))

/-- Embedding of `HyperPayWebhookView.post` (`src/hyperpay/views.py`, lines
221-316).  The result is the HTTP status and the final store;
`Except.error` is an uncaught Python exception escaping the view (a missing
`merchant_transaction_id` key, a dashless reference, or the
`HyperPayBadGatewayResponse` raised by `_verify_status`, none of which the
view catches).  The dictionary accesses `data['payment_brand']`,
`data['amount']`, `data['currency']` and `data['result']['description']`
happen while building the `handle_payment` call, inside the broad `try`, so
a missing one of those keys lands in the rolled-back branch. -/
def post (env : Env) (p : WebhookPayload) (s0 : State) :
    Except String (Nat × State) :=
  let s := addAudit s0 AuditAction.RECEIVED_RESPONSE none
  match verify_webhook_callback_status p.resultCode p.id with
  | Except.error e => Except.error e
  | Except.ok status =>
    if status != PaymentStatus.SUCCESS then Except.ok (200, s)
    else
      match p.merchant_transaction_id with
      | none => Except.error "KeyError: merchant_transaction_id"
      | some ref =>
        match split_remainder ref with
        | none => Except.error "IndexError: list index out of range"
        | some tid =>
          match findPendingTransaction s tid with
          | none =>
              Except.ok (200, addAudit s AuditAction.RESPONSE_INVALID_CART none)
          | some t =>
            match t.cart.bind (getCart s) with
            | none =>
                Except.ok (200, addAudit s AuditAction.RESPONSE_INVALID_CART none)
            | some cart =>
              if cart.status != CartPROCESSING then
                Except.ok (200, addAudit s AuditAction.RESPONSE_INVALID_CART (some cart.id))
              else
                match p.payment_brand, p.amount, p.currency, p.resultDescription with
                | some _, some _, some _, some _ => commit_payment env cart.id tid s
                | _, _, _, _ =>
                    Except.ok (200, addAudit s AuditAction.TRANSACTION_ROLLED_BACK (some cart.id))

/-- Modelled from the spec: the order-fulfillment collaborator's
`handle_payment` (§6 `createTransaction`), which is external to this
repository — it records the payment fact by marking the pending transaction
`Success` and transitions the order to `PAID` (the repository's tests
observe the cart as `PAID` right after this call). -/
def handle_payment_model (cartId : Nat) (tid : String) (s : State) :
    Except String State :=
  Except.ok { s with
    transactions := s.transactions.map (fun t =>
      if t.gatewayTransactionId == tid && t.ttype == TYPE_PAYMENT then
        { t with status := "Success" } else t),
    carts := s.carts.map (fun c =>
      if c.id == cartId then { c with status := CartPAID } else c) }

/-- Modelled from the spec: the collaborator's `create_invoice`
(§6 `createInvoice`), external to this repository — it records an invoice
for the cart. -/
def create_invoice_model (cartId : Nat) (s : State) : Except String State :=
  Except.ok { s with invoices := s.invoices ++ [cartId] }

/-- Modelled from the spec: the collaborator's `fulfill_cart`
(§6 `fulfillOrder`), external to this repository — fulfillment itself leaves
the store slice modelled here unchanged. -/
def fulfill_cart_model (_cartId : Nat) (s : State) : Except String State :=
  Except.ok s

/-- The collaborator oracles on their happy path. -/
def envModel : Env :=
  ⟨handle_payment_model, create_invoice_model, fulfill_cart_model⟩

/-! Claim-side definitions: the validator contract as the specification words
it (an ordered first-violation search), to be compared with the source
embedding `verify_success_response_with_cart`. -/

/-- Spec wording, violation 1: the first missing mandatory top-level field,
in the order `id, paymentType, paymentBrand, amount, currency,
merchantTransactionId, result`. -/
def specMissingField (r : HPResponse) : Option String :=
  if !r.hasId then some "Missing field in response: id"
  else if !r.hasPaymentType then some "Missing field in response: paymentType"
  else if !r.hasPaymentBrand then some "Missing field in response: paymentBrand"
  else if !r.amount.isSome then some "Missing field in response: amount"
  else if !r.currency.isSome then some "Missing field in response: currency"
  else if !r.hasMerchantTransactionId then
    some "Missing field in response: merchantTransactionId"
  else if !r.resultCode.isSome then some "Missing field in response: result"
  else none

/-- Spec wording, violation 2: `amount` parses as a decimal exactly equal to
the local order's total (exact decimal equality, not floating-point
tolerance). -/
def specAmountOk (r : HPResponse) (cart : Cart) : Bool :=
  match r.amount with
  | some a =>
      match parseDecimal a with
      | some q => cart.total == q
      | none => false
  | none => false

/-- Spec wording: the amount-mismatch error names both values (the local
total and the received amount). -/
def specAmountViolation (r : HPResponse) (cart : Cart) : Option String :=
  if specAmountOk r cart then none
  else some ("Error comparing cart total in response with cart total: "
    ++ toString cart.total ++ ". Amount received: " ++ r.amount.getD "")

/-- Spec wording, violation 3: `currency` differs from the configured valid
currency. -/
def specCurrencyViolation (r : HPResponse) : Option String :=
  if r.currency.getD "" == VALID_CURRENCY then none
  else some ("Invalid currency: " ++ r.currency.getD "")

/-- Spec wording, violation 4: `result.code` absent/empty or not a string. -/
def specCodeViolation (r : HPResponse) : Option String :=
  if (match r.resultCode.getD none with
      | some (CodeVal.str s) => !s.isEmpty
      | _ => false) then none
  else some "Missing or invalid result.code"

/-- Spec wording, violation 5: a present (non-empty) card sub-object missing
one of `bin, last4Digits, holder, expiryMonth, expiryYear`. -/
def specCardViolation (r : HPResponse) : Option String :=
  match (if r.cardKeys.isEmpty then none
         else REQUIRED_CARD_FIELDS.find? (fun f => !r.cardKeys.contains f)) with
  | some f => some ("Missing card field: " ++ f)
  | none => none

/-- Spec wording, violation 6: the response line-item count differs from the
local cart's item count. -/
def specItemsViolation (r : HPResponse) (cart : Cart) : Option String :=
  if responseItems r == cart.itemsCount then none
  else some ("Mismatch in number of cart items: local="
    ++ toString cart.itemsCount ++ ", response=" ++ toString (responseItems r))

/-- The validator contract as the specification words it: the message of the
first violation found, checked in the specified order, or `none` when the
response passes. -/
def specFirstViolation (r : HPResponse) (cart : Cart) : Option String :=
  match specMissingField r with
  | some m => some m
  | none =>
    match specAmountViolation r cart with
    | some m => some m
    | none =>
      match specCurrencyViolation r with
      | some m => some m
      | none =>
        match specCodeViolation r with
        | some m => some m
        | none =>
          match specCardViolation r with
          | some m => some m
          | none => specItemsViolation r cart

/-! Concrete fixtures mirroring the repository's webhook tests
(`src/tests/test_views.py`): a cart in `PROCESSING` with one line item and
total 1000, its pending payment transaction, and the test's
`valid_response` payload (vendor id `123456789`, result code `000.100.110`,
merchant reference `ABCD-1-1`, snake-case keys only). -/

/-- The test cart: id 1, `PROCESSING`, total 1000, one line item. -/
def cartBase : Cart := ⟨1, CartPROCESSING, 1000, 1⟩

/-- The pending payment transaction awaiting the webhook, keyed by the
reference-derived id `1-1`. -/
def pendingTx : Transaction := ⟨"1-1", "hyperpay", "payment", "Pending", some 1⟩

/-- Store holding the pending transaction and the processing cart. -/
def sBase : State := ⟨[pendingTx], [cartBase], [], []⟩

/-- The tests' `valid_response` payload: all snake-case keys present, no
camel-case validator keys, no `cart` object. -/
def pBase : WebhookPayload :=
  ⟨some "123456789", some "000.100.110", some "Request successfully processed.",
   some "ABCD-1-1", some "VISA", some "1000.00", some "SAR",
   false, false, false, [], none⟩

/-- The payload with a declined result code (`800.100.100`), as in
`test_post_for_unsuccessful_response`. -/
def pFailure : WebhookPayload := { pBase with resultCode := some "800.100.100" }

/-- The payload with a merchant reference containing no dash at all. -/
def pNoDash : WebhookPayload := { pBase with merchant_transaction_id := some "nodash" }

/-- The payload whose reference resolves to nothing, as in
`test_post_for_invalid_cart_in_merchant_ref` (`ABCD-1-10000`). -/
def pNotFound : WebhookPayload :=
  { pBase with merchant_transaction_id := some "ABCD-1-10000" }

/-- The payload without a `result.code`. -/
def pNoCode : WebhookPayload := { pBase with resultCode := none }

/-- The empty store. -/
def sEmpty : State := ⟨[], [], [], []⟩

/-- The replay store of `test_post_success_for_duplicate_transaction`: the
vendor transaction id `123456789` is already recorded. -/
def txRecorded : Transaction := ⟨"123456789", "hyperpay", "payment", "Success", some 1⟩

/-- Store after the vendor id was recorded, cart still `PROCESSING`. -/
def sDup : State := ⟨[txRecorded], [cartBase], [], []⟩

/-- A cancelled cart with the same id. -/
def cartCancelled : Cart := ⟨1, CartCANCELLED, 1000, 1⟩

/-- Store whose cart is `CANCELLED` while its transaction is still pending. -/
def sCancelled : State := ⟨[pendingTx], [cartCancelled], [], []⟩

/-- Collaborator oracles whose invoice-creation step fails. -/
def envInvoiceFails : Env :=
  { envModel with create_invoice := fun _ _ => Except.error "invoice failure" }

/-! Theorems for the claims. -/

/-- C1: for every webhook payload whose `result.code` and `id` are both
present and non-empty, `verify_webhook_callback_status` returns the outcome
of the ordered first-match-wins rule list — `^(000\.200)` gives PENDING,
otherwise `^(800\.400\.5|100\.400\.500)` gives FAILURE, otherwise
`^(000\.000\.|000\.100\.1|000\.[36])` gives SUCCESS, otherwise
`^(000\.400\.0[^3]|000\.400\.[0-1]{2}0)` gives FAILURE, and any other code
gives FAILURE — and when `result.code` or `id` is absent or empty it raises
`BadGatewayResponse` instead of returning a status. -/
theorem C1_webhook_classification (rc pid : Option String) :
    (optTruthy rc = true → optTruthy pid = true →
      verify_webhook_callback_status rc pid = Except.ok
        (if pendingChangeableSoon (rc.getD "") then PaymentStatus.PENDING
         else if pendingNotChangeableSoon (rc.getD "") then PaymentStatus.FAILURE
         else if successCode (rc.getD "") then PaymentStatus.SUCCESS
         else if successManualReview (rc.getD "") then PaymentStatus.FAILURE
         else PaymentStatus.FAILURE))
    ∧ ((optTruthy rc = false ∨ optTruthy pid = false) →
      verify_webhook_callback_status rc pid =
        Except.error "Missing result code or payment_id.") := by
  constructor
  · intro h1 h2
    simp [verify_webhook_callback_status, h1, h2, classifyCode]
  · rintro (h | h) <;> simp [verify_webhook_callback_status, h]

/-- Witness for C1: the pending-looking code `800.400.510` classifies as
FAILURE, and a payload without an `id` raises. -/
theorem C1_webhook_classification_witness :
    verify_webhook_callback_status (some "800.400.510") (some "pay1") =
      Except.ok PaymentStatus.FAILURE
    ∧ verify_webhook_callback_status (some "000.000.000") none =
      Except.error "Missing result code or payment_id." := by
  constructor
  · exact ((C1_webhook_classification (some "800.400.510") (some "pay1")).1
      (by decide) (by decide)).trans (congrArg Except.ok (by decide))
  · exact (C1_webhook_classification (some "000.000.000") none).2 (Or.inr (by decide))

/-- C2: `verify_success_response_with_cart` raises `GatewayError` carrying
the message of the first violation found, checked in this order — missing
mandatory top-level field, amount unparseable or not exactly equal to the
cart total (the error naming both values), wrong currency, absent or
non-string `result.code`, a present card sub-object missing a required
field, and a line-item count differing from the local cart's — and returns
without raising when no violation holds. -/
theorem C2_validator_first_violation (r : HPResponse) (cart : Cart) :
    verify_success_response_with_cart r cart =
      match specFirstViolation r cart with
      | none => Except.ok ()
      | some m => Except.error m := by
  rcases r with ⟨hid, hpt, hpb, amount, currency, hmti, rcode, cardKeys, rcart⟩
  cases hid <;> cases hpt <;> cases hpb <;> cases amount <;> cases currency <;>
    cases hmti <;> cases rcode <;>
      simp only [verify_success_response_with_cart, specFirstViolation, specMissingField,
        specAmountOk, specAmountViolation, specCurrencyViolation, specCodeViolation,
        specCardViolation, specItemsViolation, Option.isSome, Option.getD,
        Bool.not_true, Bool.not_false, if_true, if_false, ite_true, ite_false,
        Bool.false_eq_true, Bool.true_eq_false] <;>
      try (first | rfl | skip)
  rename_i a c rc
  cases hp : parseDecimal a with
  | none => simp [hp]
  | some q =>
    by_cases ht : cart.total = q
    · by_cases hc : c = VALID_CURRENCY
      · rcases rc with _ | cv
        · simp [hp, ht, hc]
        · rcases cv with s | _
          · by_cases hs : s.isEmpty = true
            · simp [hp, ht, hc, hs]
            · rcases hf : (if cardKeys.isEmpty then none
                  else REQUIRED_CARD_FIELDS.find? (fun f => !cardKeys.contains f)) with _ | f
              · by_cases hi : (rcart.getD none).getD 0 = cart.itemsCount <;>
                  simp [hp, ht, hc, hs, responseItems, hi]
              · simp [hp, ht, hc, hs]
          · simp [hp, ht, hc]
      · simp [hp, ht, hc]
    · simp [hp, ht]

/-- C10: a response with no `cart` key, or a `cart` object with no `items`
list, counts as zero line items — given such a response that passes every
earlier check, validation succeeds exactly when the local cart has zero
items and otherwise fails with the count-mismatch error — and `cart` is not
a mandatory field. -/
theorem C10_missing_cart_is_zero_items (r : HPResponse) (cart : Cart)
    (hcart : r.cart = none ∨ r.cart = some none)
    (hid : r.hasId = true) (hpt : r.hasPaymentType = true)
    (hpb : r.hasPaymentBrand = true) (hmti : r.hasMerchantTransactionId = true)
    (hamount : ∃ a q, r.amount = some a ∧ parseDecimal a = some q ∧ cart.total = q)
    (hcur : r.currency = some VALID_CURRENCY)
    (hcode : ∃ c, r.resultCode = some (some (CodeVal.str c)) ∧ c.isEmpty = false)
    (hcard : (if r.cardKeys.isEmpty then none
              else REQUIRED_CARD_FIELDS.find? (fun f => !r.cardKeys.contains f)) = none) :
    (verify_success_response_with_cart r cart = Except.ok () ↔ cart.itemsCount = 0)
    ∧ (cart.itemsCount ≠ 0 →
        verify_success_response_with_cart r cart =
          Except.error ("Mismatch in number of cart items: local="
            ++ toString cart.itemsCount ++ ", response=" ++ toString (0 : Nat)))
    ∧ ("cart" ∈ MANDATORY_FIELDS ↔ False) := by
  obtain ⟨a, q, ha, hpq, htot⟩ := hamount
  obtain ⟨c, hcv, hce⟩ := hcode
  have hresp : responseItems r = 0 := by
    rcases hcart with h | h <;> simp [responseItems, h]
  have key : verify_success_response_with_cart r cart =
      (if cart.itemsCount = 0 then Except.ok () else
        Except.error ("Mismatch in number of cart items: local="
          ++ toString cart.itemsCount ++ ", response=" ++ toString (0 : Nat))) := by
    by_cases hi : cart.itemsCount = 0
    · simp only [verify_success_response_with_cart, hcard]
      simp [hid, hpt, hpb, ha, hcur, hmti, hcv, hpq, htot, hce, hresp, hi]
    · have hi2 : (0 != cart.itemsCount) = true := bne_iff_ne.mpr (Ne.symm hi)
      simp only [verify_success_response_with_cart, hcard]
      simp [hid, hpt, hpb, ha, hcur, hmti, hcv, hpq, htot, hce, hresp, hi, hi2]
  refine ⟨?_, ?_, by decide⟩
  · rw [key]
    by_cases hi : cart.itemsCount = 0 <;> simp [hi]
  · intro hi
    rw [key]
    simp [hi]

/-- Witness for C10: a fully valid response without a `cart` key passes
against a zero-item cart, and `cart` is not in `MANDATORY_FIELDS`. -/
theorem C10_missing_cart_is_zero_items_witness :
    verify_success_response_with_cart
      ⟨true, true, true, some "100.00", some "SAR", true,
       some (some (CodeVal.str "000.100.110")), [], none⟩
      ⟨1, CartPROCESSING, 100, 0⟩ = Except.ok ()
    ∧ ("cart" ∈ MANDATORY_FIELDS ↔ False) := by
  have h := C10_missing_cart_is_zero_items
      ⟨true, true, true, some "100.00", some "SAR", true,
       some (some (CodeVal.str "000.100.110")), [], none⟩
      ⟨1, CartPROCESSING, 100, 0⟩
      (Or.inl rfl) rfl rfl rfl rfl
      ⟨"100.00", 100, rfl, by decide, by decide⟩
      rfl ⟨"000.100.110", rfl, by decide⟩ (by decide)
  exact ⟨h.1.mpr rfl, h.2.2⟩

/-- Helper: the audit append touches neither the transaction lookup nor the
cart lookup. -/
theorem findPendingTransaction_addAudit (s : State) (a : AuditAction)
    (c : Option Nat) (tid : String) :
    findPendingTransaction (addAudit s a c) tid = findPendingTransaction s tid := rfl

/-- Helper: cart lookup is unchanged by an audit append. -/
theorem getCart_addAudit (s : State) (a : AuditAction) (c : Option Nat) (cid : Nat) :
    getCart (addAudit s a c) cid = getCart s cid := rfl

/-- Helper: once a SUCCESS-classified payload reaches a pending transaction
whose cart is in `PROCESSING` and the snake-case argument keys are present,
`post` runs the commit cascade — no validation step stands in between. -/
theorem post_commit_unfold (env : Env) (p : WebhookPayload) (s : State)
    (t : Transaction) (cart : Cart) (ref tid : String)
    (hclass : verify_webhook_callback_status p.resultCode p.id =
      Except.ok PaymentStatus.SUCCESS)
    (href : p.merchant_transaction_id = some ref)
    (htid : split_remainder ref = some tid)
    (hfind : findPendingTransaction s tid = some t)
    (hcart : t.cart.bind (getCart s) = some cart)
    (hst : cart.status = CartPROCESSING)
    (hpb : p.payment_brand.isSome = true) (ham : p.amount.isSome = true)
    (hcur : p.currency.isSome = true) (hdesc : p.resultDescription.isSome = true) :
    post env p s =
      commit_payment env cart.id tid (addAudit s AuditAction.RECEIVED_RESPONSE none) := by
  obtain ⟨b, hb⟩ := Option.isSome_iff_exists.mp hpb
  obtain ⟨am, ham2⟩ := Option.isSome_iff_exists.mp ham
  obtain ⟨cu, hcu2⟩ := Option.isSome_iff_exists.mp hcur
  obtain ⟨d, hd2⟩ := Option.isSome_iff_exists.mp hdesc
  have hfind2 : findPendingTransaction (addAudit s AuditAction.RECEIVED_RESPONSE none) tid
      = some t := (findPendingTransaction_addAudit s _ _ tid).trans hfind
  have hcart2 : t.cart.bind (getCart (addAudit s AuditAction.RECEIVED_RESPONSE none))
      = some cart := hcart
  simp [post, hclass, href, htid, hfind2, hcart2, hst, hb, ham2, hcu2, hd2]

/-- C4 (amended): a webhook delivery classified FAILURE is logged and
answered with HTTP 200 before the order is ever looked up: no transaction is
created and the order state is left unchanged — in particular a PROCESSING
order stays PROCESSING and is never transitioned to CANCELLED. -/
theorem C4_failure_leaves_order_untouched (env : Env) (p : WebhookPayload) (s : State)
    (h : verify_webhook_callback_status p.resultCode p.id =
      Except.ok PaymentStatus.FAILURE) :
    post env p s = Except.ok (200, addAudit s AuditAction.RECEIVED_RESPONSE none)
    ∧ (addAudit s AuditAction.RECEIVED_RESPONSE none).transactions = s.transactions
    ∧ (addAudit s AuditAction.RECEIVED_RESPONSE none).carts = s.carts := by
  refine ⟨?_, rfl, rfl⟩
  simp [post, h]

/-- C4 counterexample: the declined code `800.100.100` on the store whose
cart is PROCESSING yields HTTP 200 with the cart still PROCESSING — it is
not transitioned to CANCELLED as the claim states. -/
theorem C4_failure_not_cancelled_counterexample :
    post envModel pFailure sBase =
      Except.ok (200, addAudit sBase AuditAction.RECEIVED_RESPONSE none)
    ∧ (addAudit sBase AuditAction.RECEIVED_RESPONSE none).carts = [cartBase]
    ∧ cartBase.status = CartPROCESSING
    ∧ CartPROCESSING ≠ CartCANCELLED := by
  refine ⟨rfl, rfl, rfl, by decide⟩

/-- Witness for C4 (amended) at the declined-code fixture. -/
theorem C4_failure_leaves_order_untouched_witness :
    post envModel pFailure sBase =
      Except.ok (200, addAudit sBase AuditAction.RECEIVED_RESPONSE none) :=
  (C4_failure_leaves_order_untouched envModel pFailure sBase rfl).1

/-- C3 (code bug): replaying the delivery whose vendor transaction id
`123456789` is already recorded mutates nothing, but it is audit-logged
through the transaction-not-found path as `RESPONSE_INVALID_CART`, never as
the `DUPLICATE_TRANSACTION` entry the repository's own test
`test_post_success_for_duplicate_transaction` requires. -/
theorem C3_duplicate_logged_as_invalid_cart :
    post envModel pBase sDup = Except.ok (200,
      ⟨[txRecorded], [cartBase], [],
       [⟨AuditAction.RECEIVED_RESPONSE, none⟩,
        ⟨AuditAction.RESPONSE_INVALID_CART, none⟩]⟩)
    ∧ AuditAction.RESPONSE_INVALID_CART ≠ AuditAction.DUPLICATE_TRANSACTION
    ∧ AuditAction.RECEIVED_RESPONSE ≠ AuditAction.DUPLICATE_TRANSACTION := by
  refine ⟨rfl, by decide, by decide⟩

/-- C8 (code bug): the webhook answers HTTP 200 — not 400 — when no
transaction or order matches the echoed merchant reference (the repository's
test `test_post_for_invalid_cart_in_merchant_ref` expects 400), and a
payload without a `result.code` escapes as an uncaught exception rather than
any HTTP response. -/
theorem C8_not_found_returns_200 :
    post envModel pNotFound sEmpty = Except.ok (200,
      ⟨[], [], [],
       [⟨AuditAction.RECEIVED_RESPONSE, none⟩,
        ⟨AuditAction.RESPONSE_INVALID_CART, none⟩]⟩)
    ∧ (200 : Nat) ≠ 400
    ∧ post envModel pNoCode sEmpty =
        Except.error "Missing result code or payment_id." := by
  refine ⟨rfl, by decide, rfl⟩

/-- C6: a SUCCESS delivery that resolves to an order in any state other than
PROCESSING (or PAYMENT_PENDING) — for example CANCELLED — records an
invalid-cart-state audit entry, answers HTTP 200, creates no transaction and
leaves the store otherwise unchanged. -/
theorem C6_invalid_state_audited_no_mutation (env : Env) (p : WebhookPayload)
    (s : State) (t : Transaction) (cart : Cart) (ref tid : String)
    (hclass : verify_webhook_callback_status p.resultCode p.id =
      Except.ok PaymentStatus.SUCCESS)
    (href : p.merchant_transaction_id = some ref)
    (htid : split_remainder ref = some tid)
    (hfind : findPendingTransaction s tid = some t)
    (hcart : t.cart.bind (getCart s) = some cart)
    (hst1 : cart.status ≠ CartPROCESSING)
    (hst2 : cart.status ≠ CartPAYMENT_PENDING) :
    ∃ s2, post env p s = Except.ok (200, s2)
      ∧ s2.transactions = s.transactions
      ∧ s2.carts = s.carts
      ∧ s2.invoices = s.invoices
      ∧ s2.audit = s.audit ++ [⟨AuditAction.RECEIVED_RESPONSE, none⟩,
          ⟨AuditAction.RESPONSE_INVALID_CART, some cart.id⟩] := by
  have hfind2 : findPendingTransaction (addAudit s AuditAction.RECEIVED_RESPONSE none) tid
      = some t := (findPendingTransaction_addAudit s _ _ tid).trans hfind
  have hcart2 : t.cart.bind (getCart (addAudit s AuditAction.RECEIVED_RESPONSE none))
      = some cart := hcart
  have hstb : (cart.status != CartPROCESSING) = true := bne_iff_ne.mpr hst1
  refine ⟨addAudit (addAudit s AuditAction.RECEIVED_RESPONSE none)
      AuditAction.RESPONSE_INVALID_CART (some cart.id), ?_, rfl, rfl, rfl,
      by simp [addAudit]⟩
  simp [post, hclass, href, htid, hfind2, hcart2, hstb]

/-- Witness for C6 at the CANCELLED-cart fixture. -/
theorem C6_invalid_state_witness :
    ∃ s2, post envModel pBase sCancelled = Except.ok (200, s2)
      ∧ s2.transactions = sCancelled.transactions
      ∧ s2.carts = sCancelled.carts
      ∧ s2.invoices = sCancelled.invoices
      ∧ s2.audit = sCancelled.audit ++ [⟨AuditAction.RECEIVED_RESPONSE, none⟩,
          ⟨AuditAction.RESPONSE_INVALID_CART, some cartCancelled.id⟩] :=
  C6_invalid_state_audited_no_mutation envModel pBase sCancelled pendingTx cartCancelled
    "ABCD-1-1" "1-1" rfl rfl rfl rfl rfl (by decide) (by decide)

/-- C7 (amended): a merchant reference containing no dash raises an uncaught
`IndexError` out of the webhook view; a reference with a dash is split at
the first dash with the remainder used as the lookup id — no segment-count
validation — and a lookup that resolves to nothing returns HTTP 200 with a
`RESPONSE_INVALID_CART` audit entry and no state mutation. -/
theorem C7_reference_paths (env : Env) (p : WebhookPayload) (s : State) (ref : String)
    (hclass : verify_webhook_callback_status p.resultCode p.id =
      Except.ok PaymentStatus.SUCCESS)
    (href : p.merchant_transaction_id = some ref) :
    (split_remainder ref = none →
      post env p s = Except.error "IndexError: list index out of range")
    ∧ (∀ tid, split_remainder ref = some tid → findPendingTransaction s tid = none →
      post env p s = Except.ok (200,
        addAudit (addAudit s AuditAction.RECEIVED_RESPONSE none)
          AuditAction.RESPONSE_INVALID_CART none)
      ∧ (addAudit (addAudit s AuditAction.RECEIVED_RESPONSE none)
          AuditAction.RESPONSE_INVALID_CART none).carts = s.carts
      ∧ (addAudit (addAudit s AuditAction.RECEIVED_RESPONSE none)
          AuditAction.RESPONSE_INVALID_CART none).transactions = s.transactions) := by
  constructor
  · intro h
    simp [post, hclass, href, h]
  · intro tid h1 h2
    have h2b : findPendingTransaction (addAudit s AuditAction.RECEIVED_RESPONSE none) tid
        = none := (findPendingTransaction_addAudit s _ _ tid).trans h2
    exact ⟨by simp [post, hclass, href, h1, h2b], rfl, rfl⟩

/-- C7 counterexample: the dashless reference `nodash` makes the webhook
view raise an uncaught exception instead of returning a well-defined,
audited invalid-reference outcome. -/
theorem C7_dashless_reference_uncaught_counterexample :
    post envModel pNoDash sBase = Except.error "IndexError: list index out of range" := rfl

/-- Witness for C7 (amended) at the dashless and not-found fixtures. -/
theorem C7_reference_paths_witness :
    post envModel pNoDash sEmpty = Except.error "IndexError: list index out of range"
    ∧ post envModel pNotFound sBase = Except.ok (200,
        addAudit (addAudit sBase AuditAction.RECEIVED_RESPONSE none)
          AuditAction.RESPONSE_INVALID_CART none) := by
  constructor
  · exact (C7_reference_paths envModel pNoDash sEmpty "nodash" rfl rfl).1 rfl
  · exact ((C7_reference_paths envModel pNotFound sBase "ABCD-1-10000" rfl rfl).2
      "1-10000" rfl rfl).1

/-- C5 (amended): the webhook path performs no response-format validation —
a SUCCESS payload that reaches a pending transaction with a PROCESSING cart
proceeds to the commit cascade even when
`verify_success_response_with_cart` would reject that very payload (the
validation call in the view is commented out). -/
theorem C5_success_commits_without_validation (env : Env) (p : WebhookPayload)
    (s : State) (t : Transaction) (cart : Cart) (ref tid e : String)
    (hval : verify_success_response_with_cart p.toHPResponse cart = Except.error e)
    (hclass : verify_webhook_callback_status p.resultCode p.id =
      Except.ok PaymentStatus.SUCCESS)
    (href : p.merchant_transaction_id = some ref)
    (htid : split_remainder ref = some tid)
    (hfind : findPendingTransaction s tid = some t)
    (hcart : t.cart.bind (getCart s) = some cart)
    (hst : cart.status = CartPROCESSING)
    (hpb : p.payment_brand.isSome = true) (ham : p.amount.isSome = true)
    (hcur : p.currency.isSome = true) (hdesc : p.resultDescription.isSome = true) :
    post env p s =
      commit_payment env cart.id tid (addAudit s AuditAction.RECEIVED_RESPONSE none) :=
  post_commit_unfold env p s t cart ref tid hclass href htid hfind hcart hst
    hpb ham hcur hdesc

/-- C5 counterexample: the tests' `valid_response` payload is rejected by
the validator (it has no camel-case `paymentType` key), yet the webhook
commits it in full: the transaction is recorded, the cart is PAID, an
invoice exists and fulfillment ran. -/
theorem C5_commit_despite_validator_counterexample :
    verify_success_response_with_cart pBase.toHPResponse cartBase =
      Except.error "Missing field in response: paymentType"
    ∧ post envModel pBase sBase = Except.ok (200,
        ⟨[⟨"1-1", "hyperpay", "payment", "Success", some 1⟩],
         [⟨1, CartPAID, 1000, 1⟩], [1],
         [⟨AuditAction.RECEIVED_RESPONSE, none⟩,
          ⟨AuditAction.CART_FULFILLED, some 1⟩]⟩) := ⟨rfl, rfl⟩

/-- Witness for C5 (amended) at the `valid_response` fixture. -/
theorem C5_success_commits_without_validation_witness :
    post envModel pBase sBase =
      commit_payment envModel cartBase.id "1-1"
        (addAudit sBase AuditAction.RECEIVED_RESPONSE none) :=
  C5_success_commits_without_validation envModel pBase sBase pendingTx cartBase
    "ABCD-1-1" "1-1" "Missing field in response: paymentType"
    rfl rfl rfl rfl rfl rfl rfl rfl rfl rfl rfl

/-- C9 (amended): only the transaction-recording step (`handle_payment`) is
atomic — if it fails, the store rolls back to its pre-commit state, a
`TRANSACTION_ROLLED_BACK` entry is audited and the order stays as it was
(PROCESSING); if invoice creation or fulfillment fails after the transaction
committed, the failure is only logged and the committed records stand. -/
theorem C9_commit_failure_units (env : Env) (p : WebhookPayload) (s : State)
    (t : Transaction) (cart : Cart) (ref tid : String)
    (hclass : verify_webhook_callback_status p.resultCode p.id =
      Except.ok PaymentStatus.SUCCESS)
    (href : p.merchant_transaction_id = some ref)
    (htid : split_remainder ref = some tid)
    (hfind : findPendingTransaction s tid = some t)
    (hcart : t.cart.bind (getCart s) = some cart)
    (hst : cart.status = CartPROCESSING)
    (hpb : p.payment_brand.isSome = true) (ham : p.amount.isSome = true)
    (hcur : p.currency.isSome = true) (hdesc : p.resultDescription.isSome = true) :
    (∀ e, env.handle_payment cart.id tid (addAudit s AuditAction.RECEIVED_RESPONSE none)
        = Except.error e →
      post env p s = Except.ok (200,
        addAudit (addAudit s AuditAction.RECEIVED_RESPONSE none)
          AuditAction.TRANSACTION_ROLLED_BACK (some cart.id)))
    ∧ (∀ s1 e, env.handle_payment cart.id tid (addAudit s AuditAction.RECEIVED_RESPONSE none)
        = Except.ok s1 →
      env.create_invoice cart.id s1 = Except.error e →
      post env p s = Except.ok (200, s1))
    ∧ (∀ s1 s2 e, env.handle_payment cart.id tid (addAudit s AuditAction.RECEIVED_RESPONSE none)
        = Except.ok s1 →
      env.create_invoice cart.id s1 = Except.ok s2 →
      env.fulfill_cart cart.id s2 = Except.error e →
      post env p s = Except.ok (200, s2))
    ∧ (addAudit (addAudit s AuditAction.RECEIVED_RESPONSE none)
        AuditAction.TRANSACTION_ROLLED_BACK (some cart.id)).carts = s.carts := by
  have hpost := post_commit_unfold env p s t cart ref tid hclass href htid hfind
    hcart hst hpb ham hcur hdesc
  refine ⟨?_, ?_, ?_, rfl⟩
  · intro e he
    rw [hpost]
    simp [commit_payment, he]
  · intro s1 e h1 h2
    rw [hpost]
    simp [commit_payment, h1, h2]
  · intro s1 s2 e h1 h2 h3
    rw [hpost]
    simp [commit_payment, h1, h2, h3]

/-- C9 counterexample: when invoice creation fails after `handle_payment`
committed, the transaction is not rolled back — it stands recorded as
`Success` with the cart already `PAID`, refuting the claim that transaction
and invoice creation form one rollback unit. -/
theorem C9_invoice_failure_not_rolled_back_counterexample :
    post envInvoiceFails pBase sBase = Except.ok (200,
      ⟨[⟨"1-1", "hyperpay", "payment", "Success", some 1⟩],
       [⟨1, CartPAID, 1000, 1⟩], [],
       [⟨AuditAction.RECEIVED_RESPONSE, none⟩]⟩)
    ∧ CartPAID ≠ CartPROCESSING
    ∧ "Success" ≠ "Pending" := ⟨rfl, by decide, by decide⟩

/-- Witness for C9 (amended): the invoice-failing collaborator leaves the
committed transaction state standing. -/
theorem C9_commit_failure_units_witness :
    post envInvoiceFails pBase sBase = Except.ok (200,
      ⟨[⟨"1-1", "hyperpay", "payment", "Success", some 1⟩],
       [⟨1, CartPAID, 1000, 1⟩], [],
       [⟨AuditAction.RECEIVED_RESPONSE, none⟩]⟩) := by
  have h := (C9_commit_failure_units envInvoiceFails pBase sBase pendingTx cartBase
      "ABCD-1-1" "1-1" rfl rfl rfl rfl rfl rfl rfl rfl rfl rfl).2.1
  exact h _ "invoice failure" rfl rfl

end HyperPaySpec
